import Mathlib

/-!
Shallow embedding of the synchronization core of the IoT monitoring
dashboard front-end (`src/front-end/src/pages/monitoring/MonitoringPage.tsx`
and `src/front-end/src/pages/weather/WeatherPage.tsx`).

TypeScript `number` fields are modelled as `ℚ` (no arithmetic on them is
relevant to the claims), optional fields as `Option`, and JS string
truthiness (`if (s)`) as `s ≠ ""`.
-/

/-- Model of the JS `String.prototype.trim`: strip leading and trailing
whitespace. Structurally recursive so that concrete evaluations reduce. -/
def jsTrim (s : String) : String :=
  ⟨List.reverse (List.dropWhile Char.isWhitespace
    (List.reverse (List.dropWhile Char.isWhitespace s.data)))⟩

namespace Monitoring

/-- The `MonitoringData` record type (MonitoringPage.tsx lines 17-26):
one telemetry sample. -/
structure Sample where
  device_id : String
  temperature : Option ℚ := none
  humidity : Option ℚ := none
  cpu : Option ℚ := none
  memory_percent : Option ℚ := none
  disk_percent : Option ℚ := none
  status : Option String := none
  timestamp : String
  deriving DecidableEq, Repr

/-- The Sample Window: the `data` state of `MonitoringPage`, stored
newest-first. -/
abbrev Window := List Sample

/-- Capacity of the Sample Window: the `limit=200` used by the latest-mode
fetches and the `slice(0, 200)` of the live handler. -/
def capacity : Nat := 200

/-- The live-prepend of the `device_data` socket handler
(MonitoringPage.tsx line 125): `setData((prev) => [row, ...prev].slice(0, 200))`. -/
def applyLive (w : Window) (s : Sample) : Window :=
  (s :: w).take capacity

/-- A batch load replaces the window wholesale: every branch of `loadData`
calls `setData` with a fresh list, ignoring the previous window. `batch`
is the list handed to `setData` (newest-first canonical order). -/
def applyBatch (_ : Window) (batch : List Sample) : Window :=
  batch

/-- The query filter state of `MonitoringPage`: `deviceFilter`, `dateStart`,
`dateEnd`, `useDateRange` (lines 44-47). -/
structure Filter where
  deviceFilter : String
  dateStart : String
  dateEnd : String
  useDateRange : Bool
  deriving DecidableEq, Repr

/-- The three REST requests `loadData` can issue. The range bounds are
carried as the raw `datetime-local` strings; the code forwards them as
`new Date(v).toISOString()` in the URL. -/
inductive RequestKind where
  | range (device startTime endTime : String)
  | singleLatest (device : String)
  | allLatest
  deriving DecidableEq, Repr

/-- Branch selection of `loadData` (MonitoringPage.tsx lines 80-92):
`if (useDateRange && deviceFilter.trim() && dateStart && dateEnd)` issues the
range fetch; `else if (deviceFilter.trim())` the single-device latest fetch
(`limit=200`); else the all-devices latest fetch (`limit=200`). -/
def plannedRequest (f : Filter) : RequestKind :=
  if f.useDateRange = true ∧ jsTrim f.deviceFilter ≠ "" ∧ f.dateStart ≠ "" ∧ f.dateEnd ≠ "" then
    .range (jsTrim f.deviceFilter) f.dateStart f.dateEnd
  else if jsTrim f.deviceFilter ≠ "" then
    .singleLatest (jsTrim f.deviceFilter)
  else
    .allLatest

/-- The REST requests one invocation of `loadData` issues: always exactly
the request of the selected branch. -/
def loadDataRequests (f : Filter) : List RequestKind :=
  [plannedRequest f]

/-- Outcome of a `loadData` REST call: an array body, a non-array body
(the `Array.isArray` guard fails), or a rejection (caught by the
`catch` that clears the window). -/
inductive RestResponse where
  | ok (samples : List Sample)
  | badShape
  | err
  deriving DecidableEq, Repr

/-- The window `loadData` stores on resolution (MonitoringPage.tsx
lines 80-95): the range branch stores the body as-is (no reverse, no trim);
the two latest branches store the body reversed (REST order is
oldest→newest); a non-array body or a failure stores `[]`. Every branch
replaces the window, so the previous window is not a parameter. -/
def loadDataApply (f : Filter) (r : RestResponse) : Window :=
  match r with
  | .err => []
  | .badShape => []
  | .ok l =>
    match plannedRequest f with
    | .range _ _ _ => l
    | .singleLatest _ => l.reverse
    | .allLatest => l.reverse

/-- One mutation of the Sample Window: a resolved batch load or a live
push event. -/
inductive Op where
  | batch (f : Filter) (r : RestResponse)
  | live (s : Sample)

/-- Apply one mutation to the window. -/
def applyOp (w : Window) : Op → Window
  | .batch f r => applyBatch w (loadDataApply f r)
  | .live s => applyLive w s

/-- Run a sequence of window mutations. -/
def runOps (w : Window) (ops : List Op) : Window :=
  ops.foldl applyOp w

/-- Number of samples delivered by a mutation (0 for a live event and for
failed loads). -/
def opBatchSize : Op → Nat
  | .batch _ (.ok l) => l.length
  | .batch _ _ => 0
  | .live _ => 0

/-- The chronological projection feeding the chart: `chartData`
(MonitoringPage.tsx lines 164-176) iterates `data.slice().reverse()` and
maps each sample to a display row; this is the order of the sample
sequence it consumes. -/
def projection (w : Window) : List Sample :=
  w.reverse

/-- One row of `chartData` (MonitoringPage.tsx lines 168-175). -/
structure ChartRow where
  time : String
  date : String
  temp : ℚ
  humidity : ℚ
  cpu : ℚ
  ram : ℚ
  deriving DecidableEq, Repr

/-- The per-sample mapping of `chartData`; `fmtTime`/`fmtDate` stand for
the locale formatters `toLocaleTimeString`/`toLocaleDateString` applied to
`new Date(m.timestamp)`. -/
def toChartRow (fmtTime fmtDate : String → String) (m : Sample) : ChartRow where
  time := if m.timestamp ≠ "" then fmtTime m.timestamp else ""
  date := if m.timestamp ≠ "" then fmtDate m.timestamp else ""
  temp := m.temperature.getD 0
  humidity := m.humidity.getD 0
  cpu := m.cpu.getD 0
  ram := m.memory_percent.getD 0

/-- Definition of `chartData`: the reversed window mapped through the display row
formatter (MonitoringPage.tsx lines 164-176). -/
def chartData (fmtTime fmtDate : String → String) (w : Window) : List ChartRow :=
  (projection w).map (toChartRow fmtTime fmtDate)

/-- The `PredictionResult` record type (MonitoringPage.tsx lines 28-34). -/
structure PredictionResult where
  device_id : String
  predicted_temperature : Option ℚ := none
  horizon_seconds : Option ℚ := none
  method : Option String := none
  based_on_n_points : Option ℚ := none
  deriving DecidableEq, Repr

/-- The component state of `MonitoringPage` (lines 42-52): window, loading
flag, filter, socket connectivity, and the ML-prediction panel. -/
structure MonitoringState where
  data : Window
  loading : Bool
  deviceFilter : String
  dateStart : String
  dateEnd : String
  useDateRange : Bool
  socketConnected : Bool
  predictDeviceId : String
  prediction : Option PredictionResult
  predictionLoading : Bool
  predictionError : Option String
  deriving DecidableEq, Repr

/-- A raw `device_data` socket payload after JS dynamic typing: each field
is `some v` exactly when the field is present with the matching `typeof`
(string for `device_id`, `timestamp`, `status`; number for the metrics),
mirroring the guards on MonitoringPage.tsx lines 114-123. -/
structure RawDoc where
  device_id : Option String := none
  temperature : Option ℚ := none
  humidity : Option ℚ := none
  cpu : Option ℚ := none
  memory_percent : Option ℚ := none
  disk_percent : Option ℚ := none
  status : Option String := none
  timestamp : Option String := none
  deriving DecidableEq, Repr

/-- The validation guard of the `device_data` handler (line 114):
`d && typeof d.device_id === "string" && typeof d.timestamp === "string"`.
A `none` payload models a falsy `doc`. -/
def docValid : Option RawDoc → Prop
  | some d => d.device_id.isSome = true ∧ d.timestamp.isSome = true
  | none => False

instance (doc : Option RawDoc) : Decidable (docValid doc) := by
  cases doc with
  | none => exact .isFalse id
  | some d => exact inferInstanceAs (Decidable (_ ∧ _))

/-- The `row` built from a validated payload (lines 115-124). -/
def mkRow (d : RawDoc) (id ts : String) : Sample where
  device_id := id
  temperature := d.temperature
  humidity := d.humidity
  cpu := d.cpu
  memory_percent := d.memory_percent
  disk_percent := d.disk_percent
  status := d.status
  timestamp := ts

/-- The `device_data` socket handler (MonitoringPage.tsx lines 111-127):
it first runs `setSocketConnected(true)`, then validates the payload and,
when valid, prepends the row with the capacity trim; an invalid payload
changes nothing else. -/
def deviceDataHandler (doc : Option RawDoc) (s : MonitoringState) : MonitoringState :=
  let s1 := { s with socketConnected := true }
  match doc with
  | some d =>
    match d.device_id, d.timestamp with
    | some id, some ts => { s1 with data := applyLive s1.data (mkRow d id ts) }
    | _, _ => s1
  | none => s1

/-- The ML-prediction requests a `MonitoringPage` action can issue. -/
inductive MonRequest where
  | mlPredict (device : String)
  deriving DecidableEq, Repr

/-- The synchronous start of `fetchPrediction` (MonitoringPage.tsx
lines 140-148): guard `if (!predictDeviceId.trim()) return;`, then set
loading, clear error and result, and issue the predict request
(`horizon_seconds=60&limit=30`). -/
def fetchPrediction (s : MonitoringState) : MonitoringState × List MonRequest :=
  if jsTrim s.predictDeviceId = "" then (s, [])
  else
    ({ s with predictionLoading := true, predictionError := none, prediction := none },
     [.mlPredict (jsTrim s.predictDeviceId)])

/-- The query-controller state relevant to overlapping `loadData` calls:
the window and the currently active filter. -/
structure QState where
  window : Window
  activeFilter : Filter
  deriving DecidableEq, Repr

/-- Asynchronous events of the query controller: `issue f` is a `loadData`
invocation captured over filter `f` (the filter becomes the active one);
`resolve f r` is the continuation of such an invocation resolving with
response `r`. The continuation (lines 86-95) stores its result
unconditionally — there is no comparison against the active filter and no
cancellation flag in `loadData`. -/
inductive QEvent where
  | issue (f : Filter)
  | resolve (f : Filter) (r : RestResponse)

/-- One step of the query controller. -/
def qStep (s : QState) : QEvent → QState
  | .issue f => { s with activeFilter := f }
  | .resolve f r => { s with window := loadDataApply f r }

/-- Run a sequence of query-controller events. -/
def runQ (s : QState) (evs : List QEvent) : QState :=
  evs.foldl qStep s

end Monitoring

namespace Weather

/-- The record `CitySuggestion` (WeatherPage.tsx line 30). -/
structure CitySuggestion where
  name : String
  country : Option String := none
  latitude : ℚ
  longitude : ℚ
  deriving DecidableEq, Repr

/-- The record `WeatherData` (WeatherPage.tsx lines 18-28). -/
structure WeatherData where
  temperature : Option ℚ := none
  humidity : Option ℚ := none
  description : Option String := none
  city : Option String := none
  updated_at : Option String := none
  pressure : Option ℚ := none
  wind_speed : Option ℚ := none
  wind_direction : Option ℚ := none
  precipitation : Option ℚ := none
  deriving DecidableEq, Repr

/-- The record `ForecastDay` (WeatherPage.tsx lines 32-39). -/
structure ForecastDay where
  date : String
  temp_min : Option ℚ := none
  temp_max : Option ℚ := none
  description : Option String := none
  precipitation_sum : Option ℚ := none
  wind_speed_max : Option ℚ := none
  deriving DecidableEq, Repr

/-- The record `ForecastData` (WeatherPage.tsx lines 43-48); the hourly/next-hour
payloads are opaque to the claims and carried as their fields. -/
structure ForecastData where
  city : Option String := none
  daily : Option (List ForecastDay) := none
  deriving DecidableEq, Repr

/-- The record `SensorSample` (WeatherPage.tsx line 50). -/
structure SensorSample where
  device_id : Option String := none
  temperature : Option ℚ := none
  humidity : Option ℚ := none
  timestamp : Option String := none
  deriving DecidableEq, Repr

/-- The record `WeatherAnalysisDevice` (WeatherPage.tsx lines 52-59). -/
structure WeatherAnalysisDevice where
  device_id : String
  avg_temp : ℚ
  deviation : ℚ
  is_anomaly : Bool
  mean_abs_error : ℚ
  sample_count : ℚ
  deriving DecidableEq, Repr

/-- The record `WeatherAnalysisData` (WeatherPage.tsx lines 61-67). -/
structure WeatherAnalysisData where
  city : Option String := none
  weather_temp : Option ℚ := none
  weather_humidity : Option ℚ := none
  devices : List WeatherAnalysisDevice
  anomaly_threshold_celsius : Option ℚ := none
  deriving DecidableEq, Repr

/-- The record `WeatherAwarePrediction` (WeatherPage.tsx lines 69-80). -/
structure WeatherAwarePrediction where
  device_id : String
  city : Option String := none
  device_prediction : Option ℚ := none
  weather_next_hour : Option ℚ := none
  weather_aware_prediction : Option ℚ := none
  blend_factor : Option ℚ := none
  horizon_seconds : Option ℚ := none
  deriving DecidableEq, Repr

/-- The record `Prediction24hData` (WeatherPage.tsx lines 84-91); the hourly rows are
opaque to the claims. -/
structure Prediction24hData where
  city : Option String := none
  device_id : Option String := none
  method : Option String := none
  blend_factor : Option ℚ := none
  based_on_n_points : Option ℚ := none
  deriving DecidableEq, Repr

/-- The constant `SEARCH_DEBOUNCE_MS` (WeatherPage.tsx line 93). -/
def SEARCH_DEBOUNCE_MS : Nat := 350

/-- The component state of `WeatherPage` (lines 145-175), plus `pending`
modelling `searchTimeoutRef`: `some (deadline, value)` is an armed
`setTimeout` that will run `fetchSuggestions value` at `deadline`. -/
structure WeatherState where
  weather : Option WeatherData
  loading : Bool
  error : Option String
  retryCount : Nat
  cityQuery : String
  citySuggestions : List CitySuggestion
  selectedCity : Option CitySuggestion
  suggestionsOpen : Bool
  searching : Bool
  searchError : Option String
  pending : Option (Nat × String)
  forecastData : Option ForecastData
  forecastLoading : Bool
  forecastError : Option String
  sensorsData : List SensorSample
  sensorsLoading : Bool
  analysisData : Option WeatherAnalysisData
  analysisLoading : Bool
  analysisError : Option String
  weatherAwareDeviceId : String
  weatherAwareResult : Option WeatherAwarePrediction
  weatherAwareLoading : Bool
  weatherAwareError : Option String
  prediction24hDeviceId : String
  prediction24hData : Option Prediction24hData
  prediction24hLoading : Bool
  prediction24hError : Option String
  deriving DecidableEq, Repr

/-- A raw city record after JS dynamic typing: a field is `some v` exactly
when present with the matching `typeof` (string name, number coordinates),
as tested by `normalizeSuggestions` (line 290) and the Open-Meteo filter
(line 119). -/
structure RawCity where
  name : Option String := none
  country : Option String := none
  latitude : Option ℚ := none
  longitude : Option ℚ := none
  deriving DecidableEq, Repr

/-- Keep a raw city iff name, latitude and longitude pass the type guards,
producing the normalized `CitySuggestion` (lines 290-291). -/
def normalizeCity (x : RawCity) : Option CitySuggestion :=
  match x.name, x.latitude, x.longitude with
  | some n, some la, some lo => some { name := n, country := x.country, latitude := la, longitude := lo }
  | _, _, _ => none

/-- The body of a `search-city` response: a bare array, an object with a
`results` array, or anything else. -/
inductive SearchPayload where
  | arr (items : List RawCity)
  | wrapped (items : List RawCity)
  | other
  deriving DecidableEq, Repr

/-- The function `normalizeSuggestions` (WeatherPage.tsx lines 288-297): filter+map a
bare array; recurse into a `results` wrapper; anything else gives `[]`. -/
def normalizeSuggestions : SearchPayload → List CitySuggestion
  | .arr items => items.filterMap normalizeCity
  | .wrapped items => items.filterMap normalizeCity
  | .other => []

/-- An Open-Meteo geocoding HTTP response: `ok` is `res.ok`; `results` is
the optional `results` array of the JSON body. -/
structure OpenMeteoResp where
  ok : Bool
  results : Option (List RawCity) := none
  deriving DecidableEq, Repr

/-- The function `fetchCitiesOpenMeteo` (WeatherPage.tsx lines 112-121) on a response
that arrived: `if (!res.ok) return []`, else filter the `results ?? []`
through the same shape guards into `CitySuggestion`s. A rejected fetch is
handled by the `catch` of the caller. -/
def fetchCitiesOpenMeteo (r : OpenMeteoResp) : List CitySuggestion :=
  if r.ok = true then (r.results.getD []).filterMap normalizeCity
  else []

/-- The "no results" message `Aucune ville trouvée pour « q »`
(WeatherPage.tsx lines 308, 315). -/
def noResultsMsg (q : String) : String :=
  "Aucune ville trouvée pour « " ++ q ++ " »"

/-- The transport-failure message (WeatherPage.tsx line 319). -/
def unavailableMsg : String := "Recherche indisponible."

/-- Outcome of one of the two search sources: `.error ()` is a rejected
request (network error / timeout), `.ok` a response body. -/
abbrev SourceResult (α : Type) := Except Unit α

/-- Shared tail of both resolution branches of `fetchSuggestions`
(lines 305-308 and 312-315): store the list, open the dropdown iff
non-empty, and set the "no results" message iff empty. -/
def applySuggestionList (value : String) (list : List CitySuggestion)
    (s : WeatherState) : WeatherState :=
  { s with
    citySuggestions := list
    suggestionsOpen := decide (list ≠ [])
    searchError := if list = [] then some (noResultsMsg (jsTrim value)) else none
    searching := false }

/-- The resolution of `fetchSuggestions value` (WeatherPage.tsx
lines 299-323) for a non-blank `value`, given the outcome of the primary
`search-city` call and — consulted only in the `catch` of the primary — the
outcome of the Open-Meteo fallback. `.error ()` for the fallback means
`fetchCitiesOpenMeteo` threw, reaching the inner `catch` that sets the
transport-failure message. -/
def fetchSuggestionsResolve (value : String)
    (primary : SourceResult SearchPayload)
    (fallback : SourceResult OpenMeteoResp)
    (s : WeatherState) : WeatherState :=
  match primary with
  | .ok p => applySuggestionList value (normalizeSuggestions p) s
  | .error _ =>
    match fallback with
    | .ok r => applySuggestionList value (fetchCitiesOpenMeteo r) s
    | .error _ =>
      { s with
        citySuggestions := []
        suggestionsOpen := false
        searchError := some unavailableMsg
        searching := false }

/-- The synchronous start of `fetchSuggestions value` (WeatherPage.tsx
lines 299-303): a blank value clears the suggestions and returns without a
request; otherwise set `searching`, clear the search error, and issue the
`search-city` request for the trimmed value (returned as the fired query list). -/
def fetchSuggestionsStart (value : String) (s : WeatherState) :
    WeatherState × List String :=
  if jsTrim value = "" then
    ({ s with citySuggestions := [], suggestionsOpen := false, searchError := none }, [])
  else
    ({ s with searching := true, searchError := none }, [jsTrim value])

/-- The handler `onInputChange value` at instant `now` (WeatherPage.tsx lines 325-332):
store the query, clear errors, cancel the armed timer; a blank value clears
the suggestions immediately; otherwise arm a timer for
`now + SEARCH_DEBOUNCE_MS` that will run `fetchSuggestions value`. -/
def onInputChange (now : Nat) (value : String) (s : WeatherState) : WeatherState :=
  let s1 := { s with cityQuery := value, error := none, searchError := none, pending := none }
  if jsTrim value = "" then
    { s1 with citySuggestions := [], suggestionsOpen := false }
  else
    { s1 with pending := some (now + SEARCH_DEBOUNCE_MS, value) }

/-- Fire the armed debounce timer if its deadline has passed by instant
`t`: run `fetchSuggestions` for the stored value, collecting the fired
query. -/
def fireDue (t : Nat) (s : WeatherState) : WeatherState × List String :=
  match s.pending with
  | some (d, v) =>
    if d ≤ t then fetchSuggestionsStart v { s with pending := none }
    else (s, [])
  | none => (s, [])

/-- Handle one keystroke `(t, v)`: the event loop first runs any timer due
by `t`, then the `onInputChange` handler; fired queries accumulate. -/
def processKey (acc : WeatherState × List String) (k : Nat × String) :
    WeatherState × List String :=
  let (s1, f1) := fireDue k.1 acc.1
  (onInputChange k.1 k.2 s1, acc.2 ++ f1)

/-- Fire whatever timer is still armed after the last keystroke (the quiet
period elapses eventually). -/
def flushPending (s : WeatherState) : WeatherState × List String :=
  match s.pending with
  | some (_, v) => fetchSuggestionsStart v { s with pending := none }
  | none => (s, [])

/-- Run a keystroke sequence through the debounced search and let the
final timer settle; returns the final state and every fired query. -/
def runSearch (s0 : WeatherState) (keys : List (Nat × String)) :
    WeatherState × List String :=
  let r := keys.foldl processKey (s0, [])
  ((flushPending r.1).1, r.2 ++ (flushPending r.1).2)

/-- Consecutive keystrokes closer than the settle interval. -/
def gapOk (a b : Nat × String) : Prop :=
  b.1 < a.1 + SEARCH_DEBOUNCE_MS

instance : DecidableRel gapOk :=
  fun a b => inferInstanceAs (Decidable (b.1 < a.1 + SEARCH_DEBOUNCE_MS))

/-- The queries a settled keystroke burst is expected to fire: none for an
empty burst or a blank final value, else exactly the trimmed final value. -/
def expectedFire (keys : List (Nat × String)) : List String :=
  match keys.getLast? with
  | none => []
  | some (_, v) => if jsTrim v = "" then [] else [jsTrim v]

/-- The handler `selectCity c` (WeatherPage.tsx lines 280-286): commit the city, echo
its name into the query box, close and clear the suggestion list, and bump
`retryCount`. -/
def selectCity (c : CitySuggestion) (s : WeatherState) : WeatherState :=
  { s with
    selectedCity := some c
    cityQuery := c.name
    citySuggestions := []
    suggestionsOpen := false
    retryCount := s.retryCount + 1 }

/-- The independently loading panels of `WeatherPage` driven by effects or
explicit actions. -/
inductive Panel where
  | currentWeather
  | forecast
  | analysis
  | sensors
  | weatherAware
  | prediction24h
  deriving DecidableEq, Repr

/-- The effect-driven panels, in declaration order (WeatherPage.tsx
lines 186-254); the two prediction panels have no effect — they fetch only
from their buttons. -/
def effectPanels : List Panel :=
  [.currentWeather, .forecast, .analysis, .sensors]

/-- Whether the effect dependency list of a panel differs between two states
(React re-runs an effect when a dependency changed): current weather
depends on `retryCount` and `selectedCity` (line 218), forecast and
analysis on `selectedCity` (lines 231, 254), sensors only on the stable
`api` (line 241). -/
def effectDepsChanged (old new : WeatherState) : Panel → Bool
  | .currentWeather =>
    decide (old.retryCount ≠ new.retryCount) || decide (old.selectedCity ≠ new.selectedCity)
  | .forecast => decide (old.selectedCity ≠ new.selectedCity)
  | .analysis => decide (old.selectedCity ≠ new.selectedCity)
  | _ => false

/-- The effects re-run by a state change. -/
def retriggered (old new : WeatherState) : List Panel :=
  effectPanels.filter (effectDepsChanged old new)

/-- The synchronous start of the fetch of an effect-driven panel for a selected
city (current weather lines 190-192, forecast lines 223-225, analysis
lines 246-248, sensors line 235): set the loading flag of the panel and clear
its error. -/
def effectStart (p : Panel) (s : WeatherState) : WeatherState :=
  match p with
  | .currentWeather => { s with loading := true, error := none }
  | .forecast => { s with forecastLoading := true, forecastError := none }
  | .analysis => { s with analysisLoading := true, analysisError := none }
  | .sensors => { s with sensorsLoading := true }
  | .weatherAware => s
  | .prediction24h => s

/-- Run the synchronous starts of a list of re-triggered effects. -/
def runEffectStarts (ps : List Panel) (s : WeatherState) : WeatherState :=
  ps.foldl (fun st p => effectStart p st) s

/-- The prediction requests a `WeatherPage` button can issue. -/
inductive WeatherRequest where
  | weatherAware (device : String) (c : CitySuggestion)
  | pred24h (device : String) (c : CitySuggestion)
  deriving DecidableEq, Repr

/-- The synchronous start of `fetchWeatherAwarePrediction` (WeatherPage.tsx
lines 256-262): guard `if (!current || !weatherAwareDeviceId.trim()) return;`,
then set loading, clear error and result, and issue the
`predict-weather-aware` request. -/
def fetchWeatherAwarePrediction (s : WeatherState) : WeatherState × List WeatherRequest :=
  match s.selectedCity with
  | none => (s, [])
  | some current =>
    if jsTrim s.weatherAwareDeviceId = "" then (s, [])
    else
      ({ s with weatherAwareLoading := true, weatherAwareError := none, weatherAwareResult := none },
       [.weatherAware (jsTrim s.weatherAwareDeviceId) current])

/-- The synchronous start of `fetchPrediction24h` (WeatherPage.tsx
lines 268-274): guard `if (!current || !prediction24hDeviceId.trim()) return;`,
then set loading, clear error and result, and issue the `prediction-24h`
request. -/
def fetchPrediction24h (s : WeatherState) : WeatherState × List WeatherRequest :=
  match s.selectedCity with
  | none => (s, [])
  | some current =>
    if jsTrim s.prediction24hDeviceId = "" then (s, [])
    else
      ({ s with prediction24hLoading := true, prediction24hError := none, prediction24hData := none },
       [.pred24h (jsTrim s.prediction24hDeviceId) current])

end Weather

section Constants

open Monitoring Weather

/-- A concrete telemetry sample used in concrete evaluations. -/
def sampleA : Sample :=
  { device_id := "dev-1", temperature := some 21, timestamp := "2025-01-01T00:00:00Z" }

/-- A second concrete telemetry sample, distinct from `sampleA`. -/
def sampleB : Sample :=
  { device_id := "dev-2", humidity := some 40, timestamp := "2025-01-01T00:00:01Z" }

/-- A filter in single-device-range mode with both bounds set. -/
def rangeFilter : Filter :=
  { deviceFilter := "dev-1", dateStart := "2025-01-01T00:00",
    dateEnd := "2025-01-02T00:00", useDateRange := true }

/-- A filter with range mode toggled on, a device selected, but only the
start bound set. -/
def halfRangeFilter : Filter :=
  { deviceFilter := "dev-1", dateStart := "2025-01-01T00:00",
    dateEnd := "", useDateRange := true }

/-- The all-devices-latest filter (no device selected). -/
def allFilter : Filter :=
  { deviceFilter := "", dateStart := "", dateEnd := "", useDateRange := false }

/-- A single-device-latest filter. -/
def devFilter : Filter :=
  { deviceFilter := "dev-2", dateStart := "", dateEnd := "", useDateRange := false }

/-- The initial `MonitoringPage` state (useState initializers,
MonitoringPage.tsx lines 42-52). -/
def mState0 : MonitoringState :=
  { data := [], loading := true, deviceFilter := "", dateStart := "",
    dateEnd := "", useDateRange := false, socketConnected := false,
    predictDeviceId := "", prediction := none, predictionLoading := false,
    predictionError := none }

/-- A `device_data` payload that fails the shape guard: no string
`device_id`. -/
def badDoc : Option RawDoc :=
  some { timestamp := some ("2025-01-01T00:00:00Z") }

/-- The default selected city (WeatherPage.tsx line 151). -/
def parisCity : CitySuggestion :=
  { name := "Paris", country := some ("France"), latitude := 48.8566, longitude := 2.3522 }

/-- Another concrete city, distinct from `parisCity`. -/
def fesCity : CitySuggestion :=
  { name := "Fès", country := some ("Maroc"), latitude := 34.0331, longitude := -5.0003 }

/-- The initial `WeatherPage` state (useState initializers, WeatherPage.tsx
lines 145-175), with no timer armed. -/
def wState0 : WeatherState :=
  { weather := none, loading := true, error := none, retryCount := 0,
    cityQuery := "Paris", citySuggestions := [], selectedCity := some parisCity,
    suggestionsOpen := false, searching := false, searchError := none,
    pending := none, forecastData := none, forecastLoading := false,
    forecastError := none, sensorsData := [], sensorsLoading := false,
    analysisData := none, analysisLoading := false, analysisError := none,
    weatherAwareDeviceId := "", weatherAwareResult := none,
    weatherAwareLoading := false, weatherAwareError := none,
    prediction24hDeviceId := "", prediction24hData := none,
    prediction24hLoading := false, prediction24hError := none }

end Constants

section Claims

open Monitoring Weather

/-- C5: for any non-empty batch `S`, `applyBatch S` followed immediately by
the chronological projection yields exactly `S` reversed; `chartData` is
that reversed sequence mapped pointwise through the display row formatter. -/
theorem applyBatch_projection_reverses (w : Window) (S : List Sample)
    (fmtT fmtD : String → String) (hS : S ≠ []) :
    projection (applyBatch w S) = S.reverse ∧
    chartData fmtT fmtD (applyBatch w S) = S.reverse.map (toChartRow fmtT fmtD) := by
  exact ⟨rfl, rfl⟩

/-- Witness for `applyBatch_projection_reverses` at the one-element batch
`[sampleA]`. -/
theorem applyBatch_projection_reverses_witness :
    [sampleA] ≠ ([] : List Sample) ∧
    (projection (applyBatch [] [sampleA]) = [sampleA].reverse ∧
      chartData id id (applyBatch [] [sampleA]) = [sampleA].reverse.map (toChartRow id id)) :=
  ⟨by decide, applyBatch_projection_reverses [] [sampleA] id id (by decide)⟩

/-- C6: under the capacity invariant, `applyLive` always places the live
sample at the head of the newest-first window (no sort-on-insert), keeps
the window within capacity, leaves the rest untouched when under capacity,
and evicts exactly the oldest entry when the window was full. -/
theorem applyLive_prepends_and_evicts (w : Window) (s : Sample)
    (h : w.length ≤ capacity) :
    (applyLive w s).head? = some s ∧
    (applyLive w s).length ≤ capacity ∧
    (w.length < capacity → applyLive w s = s :: w) ∧
    (w.length = capacity → applyLive w s = s :: w.dropLast) := by
  have e : applyLive w s = s :: w.take 199 := rfl
  refine ⟨by rw [e]; rfl, ?_, ?_, ?_⟩
  · simpa [applyLive, capacity] using Nat.min_le_left 200 (w.length + 1)
  · intro hlt
    rw [e, List.take_of_length_le (by simpa [capacity] using Nat.lt_succ_iff.mp hlt)]
  · intro heq
    rw [e, List.dropLast_eq_take, heq]
    rfl

/-- Witness for `applyLive_prepends_and_evicts` at the empty window. -/
theorem applyLive_prepends_and_evicts_witness :
    ([] : Window).length ≤ capacity ∧
    ((applyLive [] sampleA).head? = some sampleA ∧
      (applyLive [] sampleA).length ≤ capacity ∧
      (([] : Window).length < capacity → applyLive [] sampleA = [sampleA]) ∧
      (([] : Window).length = capacity → applyLive [] sampleA = sampleA :: ([] : Window).dropLast)) :=
  ⟨by decide, applyLive_prepends_and_evicts [] sampleA (by decide)⟩

/-- C10: each device-keyed prediction fetch is a complete no-op while its
precondition is unmet — an empty or whitespace-only device id (and, for the
two weather panels, a missing city selection) issues no request and leaves
every piece of state unchanged. -/
theorem prediction_guards_are_noops (m : MonitoringState) (w1 w2 : WeatherState)
    (h1 : jsTrim m.predictDeviceId = "")
    (h2 : w1.selectedCity = none ∨ jsTrim w1.weatherAwareDeviceId = "")
    (h3 : w2.selectedCity = none ∨ jsTrim w2.prediction24hDeviceId = "") :
    Monitoring.fetchPrediction m = (m, []) ∧
    fetchWeatherAwarePrediction w1 = (w1, []) ∧
    fetchPrediction24h w2 = (w2, []) := by
  refine ⟨?_, ?_, ?_⟩
  · simp [Monitoring.fetchPrediction, h1]
  · rcases h2 with h2 | h2
    · simp [fetchWeatherAwarePrediction, h2]
    · cases hc : w1.selectedCity <;> simp [fetchWeatherAwarePrediction, hc, h2]
  · rcases h3 with h3 | h3
    · simp [fetchPrediction24h, h3]
    · cases hc : w2.selectedCity <;> simp [fetchPrediction24h, hc, h3]

/-- Witness for `prediction_guards_are_noops` at the initial page states,
whose device ids are all empty. -/
theorem prediction_guards_are_noops_witness :
    jsTrim mState0.predictDeviceId = "" ∧
    (wState0.selectedCity = none ∨ jsTrim wState0.weatherAwareDeviceId = "") ∧
    (wState0.selectedCity = none ∨ jsTrim wState0.prediction24hDeviceId = "") ∧
    (Monitoring.fetchPrediction mState0 = (mState0, []) ∧
      fetchWeatherAwarePrediction wState0 = (wState0, []) ∧
      fetchPrediction24h wState0 = (wState0, [])) :=
  ⟨by decide, by right; decide, by right; decide,
    prediction_guards_are_noops mState0 wState0 wState0 (by decide) (by right; decide)
      (by right; decide)⟩

/-- C9: replacing the City Selection re-runs exactly the location-keyed
effects (current weather, forecast, analysis) and, after their synchronous
starts, every field of the device-keyed prediction panels (result, error,
loading, device id) keeps its prior value. -/
theorem selectCity_retriggers_location_panels (s : WeatherState) (c : CitySuggestion)
    (h : s.selectedCity ≠ some c) :
    retriggered s (selectCity c s) = [.currentWeather, .forecast, .analysis] ∧
    (runEffectStarts (retriggered s (selectCity c s)) (selectCity c s)).weatherAwareResult
        = s.weatherAwareResult ∧
    (runEffectStarts (retriggered s (selectCity c s)) (selectCity c s)).weatherAwareError
        = s.weatherAwareError ∧
    (runEffectStarts (retriggered s (selectCity c s)) (selectCity c s)).weatherAwareLoading
        = s.weatherAwareLoading ∧
    (runEffectStarts (retriggered s (selectCity c s)) (selectCity c s)).prediction24hData
        = s.prediction24hData ∧
    (runEffectStarts (retriggered s (selectCity c s)) (selectCity c s)).prediction24hError
        = s.prediction24hError ∧
    (runEffectStarts (retriggered s (selectCity c s)) (selectCity c s)).prediction24hLoading
        = s.prediction24hLoading ∧
    (runEffectStarts (retriggered s (selectCity c s)) (selectCity c s)).weatherAwareDeviceId
        = s.weatherAwareDeviceId ∧
    (runEffectStarts (retriggered s (selectCity c s)) (selectCity c s)).prediction24hDeviceId
        = s.prediction24hDeviceId := by
  have hr : retriggered s (selectCity c s) = [.currentWeather, .forecast, .analysis] := by
    have hne : s.selectedCity ≠ (selectCity c s).selectedCity := by
      simpa [selectCity] using h
    have hrc : s.retryCount ≠ (selectCity c s).retryCount := by
      simp [selectCity]
    simp [retriggered, effectPanels, effectDepsChanged, hne, hrc]
  refine ⟨hr, ?_, ?_, ?_, ?_, ?_, ?_, ?_, ?_⟩ <;>
    rw [hr] <;> simp [runEffectStarts, effectStart, selectCity]

/-- Witness for `selectCity_retriggers_location_panels`: replacing the
default Paris selection with Fès. -/
theorem selectCity_retriggers_location_panels_witness :
    wState0.selectedCity ≠ some fesCity ∧
    (retriggered wState0 (selectCity fesCity wState0) = [.currentWeather, .forecast, .analysis] ∧
      (runEffectStarts (retriggered wState0 (selectCity fesCity wState0)) (selectCity fesCity wState0)).weatherAwareResult
          = wState0.weatherAwareResult ∧
      (runEffectStarts (retriggered wState0 (selectCity fesCity wState0)) (selectCity fesCity wState0)).weatherAwareError
          = wState0.weatherAwareError ∧
      (runEffectStarts (retriggered wState0 (selectCity fesCity wState0)) (selectCity fesCity wState0)).weatherAwareLoading
          = wState0.weatherAwareLoading ∧
      (runEffectStarts (retriggered wState0 (selectCity fesCity wState0)) (selectCity fesCity wState0)).prediction24hData
          = wState0.prediction24hData ∧
      (runEffectStarts (retriggered wState0 (selectCity fesCity wState0)) (selectCity fesCity wState0)).prediction24hError
          = wState0.prediction24hError ∧
      (runEffectStarts (retriggered wState0 (selectCity fesCity wState0)) (selectCity fesCity wState0)).prediction24hLoading
          = wState0.prediction24hLoading ∧
      (runEffectStarts (retriggered wState0 (selectCity fesCity wState0)) (selectCity fesCity wState0)).weatherAwareDeviceId
          = wState0.weatherAwareDeviceId ∧
      (runEffectStarts (retriggered wState0 (selectCity fesCity wState0)) (selectCity fesCity wState0)).prediction24hDeviceId
          = wState0.prediction24hDeviceId) :=
  ⟨by decide, selectCity_retriggers_location_panels wState0 fesCity (by decide)⟩

/-- The "no results" message is never the transport-failure message,
whatever the query: the two literals differ already in length. -/
theorem noResults_ne_unavailable (q : String) : noResultsMsg q ≠ unavailableMsg := by
  intro h
  have hl := congrArg String.length h
  rw [noResultsMsg, unavailableMsg, String.length_append, String.length_append] at hl
  have h1 : ("Aucune ville trouvée pour « " : String).length = 28 := by decide
  have h2 : (" »" : String).length = 2 := by decide
  have h3 : ("Recherche indisponible." : String).length = 23 := by decide
  rw [h1, h2, h3] at hl
  omega

/-- C8: the city search consults the primary source first (its resolution
is independent of the fallback), falls back to Open-Meteo only when the
primary fails, normalizes both answers into `CitySuggestion` lists, reports
zero matches from the answering source as an empty list with the
informational "no results" message, and produces the transport-failure
message exactly when both sources fail. -/
theorem search_fallback_and_messages (value : String) (s : WeatherState)
    (primary : SourceResult SearchPayload) (fallback : SourceResult OpenMeteoResp)
    (p : SearchPayload) (r : OpenMeteoResp)
    (hv : jsTrim value ≠ "") :
    (primary = .ok p →
      fetchSuggestionsResolve value primary fallback s
        = applySuggestionList value (normalizeSuggestions p) s) ∧
    (primary = .ok p → normalizeSuggestions p = [] →
      (fetchSuggestionsResolve value primary fallback s).citySuggestions = [] ∧
      (fetchSuggestionsResolve value primary fallback s).searchError
        = some (noResultsMsg (jsTrim value))) ∧
    (primary = .error () → fallback = .ok r →
      fetchSuggestionsResolve value primary fallback s
        = applySuggestionList value (fetchCitiesOpenMeteo r) s) ∧
    (primary = .error () → fallback = .ok r → fetchCitiesOpenMeteo r = [] →
      (fetchSuggestionsResolve value primary fallback s).citySuggestions = [] ∧
      (fetchSuggestionsResolve value primary fallback s).searchError
        = some (noResultsMsg (jsTrim value))) ∧
    ((fetchSuggestionsResolve value primary fallback s).searchError = some unavailableMsg
      ↔ primary = .error () ∧ fallback = .error ()) ∧
    noResultsMsg (jsTrim value) ≠ unavailableMsg := by
  refine ⟨?_, ?_, ?_, ?_, ?_, noResults_ne_unavailable _⟩
  · intro h; subst h; rfl
  · intro h he; subst h
    simp [fetchSuggestionsResolve, applySuggestionList, he]
  · intro h1 h2; subst h1; subst h2; rfl
  · intro h1 h2 he; subst h1; subst h2
    simp [fetchSuggestionsResolve, applySuggestionList, he]
  · constructor
    · cases primary with
      | ok p' =>
        intro h
        exfalso
        simp only [fetchSuggestionsResolve, applySuggestionList] at h
        by_cases he : normalizeSuggestions p' = [] <;> simp [he] at h
        exact noResults_ne_unavailable (jsTrim value) h
      | error e =>
        cases e
        cases fallback with
        | ok r' =>
          intro h
          exfalso
          simp only [fetchSuggestionsResolve, applySuggestionList] at h
          by_cases he : fetchCitiesOpenMeteo r' = [] <;> simp [he] at h
          exact noResults_ne_unavailable (jsTrim value) h
        | error e' =>
          cases e'
          exact fun _ => ⟨rfl, rfl⟩
    · rintro ⟨h1, h2⟩; subst h1; subst h2; rfl

/-- Witness for `search_fallback_and_messages`: both sources failing on the
query "Zzzqq123". -/
theorem search_fallback_and_messages_witness :
    jsTrim "Zzzqq123" ≠ "" ∧
    (((.error () : SourceResult SearchPayload) = .ok .other →
      fetchSuggestionsResolve "Zzzqq123" (.error ()) (.error ()) wState0
        = applySuggestionList "Zzzqq123" (normalizeSuggestions .other) wState0) ∧
    ((.error () : SourceResult SearchPayload) = .ok .other → normalizeSuggestions .other = [] →
      (fetchSuggestionsResolve "Zzzqq123" (.error ()) (.error ()) wState0).citySuggestions = [] ∧
      (fetchSuggestionsResolve "Zzzqq123" (.error ()) (.error ()) wState0).searchError
        = some (noResultsMsg (jsTrim "Zzzqq123"))) ∧
    ((.error () : SourceResult SearchPayload) = .error () →
        (.error () : SourceResult OpenMeteoResp) = .ok { ok := false } →
      fetchSuggestionsResolve "Zzzqq123" (.error ()) (.error ()) wState0
        = applySuggestionList "Zzzqq123" (fetchCitiesOpenMeteo { ok := false }) wState0) ∧
    ((.error () : SourceResult SearchPayload) = .error () →
        (.error () : SourceResult OpenMeteoResp) = .ok { ok := false } →
        fetchCitiesOpenMeteo { ok := false } = [] →
      (fetchSuggestionsResolve "Zzzqq123" (.error ()) (.error ()) wState0).citySuggestions = [] ∧
      (fetchSuggestionsResolve "Zzzqq123" (.error ()) (.error ()) wState0).searchError
        = some (noResultsMsg (jsTrim "Zzzqq123"))) ∧
    ((fetchSuggestionsResolve "Zzzqq123" (.error ()) (.error ()) wState0).searchError
        = some unavailableMsg
      ↔ (.error () : SourceResult SearchPayload) = .error ()
          ∧ (.error () : SourceResult OpenMeteoResp) = .error ()) ∧
    noResultsMsg (jsTrim "Zzzqq123") ≠ unavailableMsg) :=
  ⟨by decide,
    search_fallback_and_messages "Zzzqq123" wState0 (.error ()) (.error ()) .other
      { ok := false } (by decide)⟩

set_option maxRecDepth 4000 in
/-- C1 counterexample: one single-device date-range batch load whose result
has 201 samples leaves the window at length 201, violating the claimed
capacity bound C = 200. -/
theorem window_can_exceed_capacity :
    (runOps [] [Op.batch rangeFilter (.ok (List.replicate 201 sampleA))]).length = 201 ∧
    ¬ (runOps [] [Op.batch rangeFilter (.ok (List.replicate 201 sampleA))]).length
        ≤ capacity := by
  constructor
  · decide
  · decide

/-- C1 amended: across any sequence of batch loads and live prepends, the
window stays within capacity provided every batch result is itself within
capacity — the live prepend always trims to C, and the two latest-mode
fetches request at most `limit=200` samples, but the range fetch carries no
limit and is stored untrimmed, so only bounded batches preserve the
invariant. -/
theorem window_bounded_given_bounded_batches (w : Window) (ops : List Op)
    (hw : w.length ≤ capacity)
    (hops : ∀ op ∈ ops, opBatchSize op ≤ capacity) :
    (runOps w ops).length ≤ capacity := by
  induction ops generalizing w with
  | nil => exact hw
  | cons op rest ih =>
    have hop := hops op (List.mem_cons_self op rest)
    have hrest : ∀ o ∈ rest, opBatchSize o ≤ capacity :=
      fun o ho => hops o (List.mem_cons_of_mem op ho)
    have hstep : (applyOp w op).length ≤ capacity := by
      cases op with
      | live s =>
        simpa [applyOp, applyLive, capacity] using Nat.min_le_left 200 (w.length + 1)
      | batch f r =>
        cases r with
        | err => simp [applyOp, applyBatch, loadDataApply, capacity]
        | badShape => simp [applyOp, applyBatch, loadDataApply, capacity]
        | ok l =>
          simp only [applyOp, applyBatch, loadDataApply]
          cases plannedRequest f <;>
            simpa [opBatchSize] using hop
    exact ih (applyOp w op) hstep hrest

/-- Witness for `window_bounded_given_bounded_batches`: a live prepend
followed by a one-sample range batch. -/
theorem window_bounded_given_bounded_batches_witness :
    ([] : Window).length ≤ capacity ∧
    (∀ op ∈ [Op.live sampleA, Op.batch rangeFilter (.ok [sampleB])], opBatchSize op ≤ capacity) ∧
    (runOps [] [Op.live sampleA, Op.batch rangeFilter (.ok [sampleB])]).length ≤ capacity :=
  ⟨by decide, by decide,
    window_bounded_given_bounded_batches [] [Op.live sampleA, Op.batch rangeFilter (.ok [sampleB])]
      (by decide) (by decide)⟩

/-- C2 counterexample: with range mode toggled on, a device selected and
only the start bound set, one invocation of `loadData` issues exactly one
request — the single-device-latest fetch, so not zero requests — and its
resolution replaces the window rather than leaving it unchanged. -/
theorem half_range_issues_latest_request :
    loadDataRequests halfRangeFilter = [RequestKind.singleLatest "dev-1"] ∧
    (loadDataRequests halfRangeFilter).length ≠ 0 ∧
    applyOp [sampleA] (Op.batch halfRangeFilter (.ok [])) ≠ [sampleA] := by
  refine ⟨by decide, by decide, by decide⟩

/-- C2 amended: with range mode toggled on and a device selected, a query
invocation with either bound missing does not issue the range request but
falls through to the single-device-latest fetch (exactly one request, which
replaces the window); once both bounds are set, one invocation issues
exactly one range request. -/
theorem range_mode_request_selection (f : Filter)
    (h1 : f.useDateRange = true) (h2 : jsTrim f.deviceFilter ≠ "") :
    ((f.dateStart = "" ∨ f.dateEnd = "") →
      loadDataRequests f = [RequestKind.singleLatest (jsTrim f.deviceFilter)]) ∧
    (f.dateStart ≠ "" → f.dateEnd ≠ "" →
      loadDataRequests f = [RequestKind.range (jsTrim f.deviceFilter) f.dateStart f.dateEnd]) ∧
    (loadDataRequests f).length = 1 := by
  refine ⟨?_, ?_, rfl⟩
  · intro hb
    rcases hb with hb | hb <;>
      simp [loadDataRequests, plannedRequest, h1, h2, hb]
  · intro hs he
    simp [loadDataRequests, plannedRequest, h1, h2, hs, he]

/-- Witness for `range_mode_request_selection` at the filter with only the
start bound set. -/
theorem range_mode_request_selection_witness :
    halfRangeFilter.useDateRange = true ∧
    jsTrim halfRangeFilter.deviceFilter ≠ "" ∧
    (((halfRangeFilter.dateStart = "" ∨ halfRangeFilter.dateEnd = "") →
      loadDataRequests halfRangeFilter
        = [RequestKind.singleLatest (jsTrim halfRangeFilter.deviceFilter)]) ∧
    (halfRangeFilter.dateStart ≠ "" → halfRangeFilter.dateEnd ≠ "" →
      loadDataRequests halfRangeFilter
        = [RequestKind.range (jsTrim halfRangeFilter.deviceFilter)
            halfRangeFilter.dateStart halfRangeFilter.dateEnd]) ∧
    (loadDataRequests halfRangeFilter).length = 1) :=
  ⟨rfl, by decide, range_mode_request_selection halfRangeFilter rfl (by decide)⟩

/-- C3 counterexample: filter F1 (all devices) is issued first, F2
(device dev-2) second; F2 resolves first with `[sampleB]`, then the stale
F1 resolution arrives with `[sampleA]` and overwrites the window, even
though the active filter is still F2 — the window reflects F1, not F2. -/
theorem stale_resolution_clobbers :
    (runQ { window := [], activeFilter := allFilter }
        [.issue allFilter, .issue devFilter,
         .resolve devFilter (.ok [sampleB]), .resolve allFilter (.ok [sampleA])]).window
      = [sampleA] ∧
    (runQ { window := [], activeFilter := allFilter }
        [.issue allFilter, .issue devFilter,
         .resolve devFilter (.ok [sampleB]), .resolve allFilter (.ok [sampleA])]).activeFilter
      = devFilter ∧
    loadDataApply devFilter (.ok [sampleB]) = [sampleB] ∧
    (runQ { window := [], activeFilter := allFilter }
        [.issue allFilter, .issue devFilter,
         .resolve devFilter (.ok [sampleB]), .resolve allFilter (.ok [sampleA])]).window
      ≠ [sampleB] := by
  refine ⟨by decide, by decide, by decide, by decide⟩

/-- C3 amended: `loadData` resolutions apply unconditionally, so after any
event sequence the window reflects whichever resolution arrived last
(last-response-wins), regardless of whether its originating filter still
matches the active one — there is no stale-response discard. -/
theorem last_response_wins (s : QState) (evs : List QEvent)
    (f : Filter) (r : RestResponse) :
    (runQ s (evs ++ [.resolve f r])).window = loadDataApply f r := by
  simp [runQ, List.foldl_append, qStep]

/-- C4 counterexample: a `device_data` payload without a string `device_id`
arriving while the socket is flagged disconnected leaves the window and the
error state untouched but flips connectivity to connected — the
connectivity state is affected by the malformed event. -/
theorem malformed_event_flips_connectivity :
    (deviceDataHandler badDoc mState0).data = mState0.data ∧
    (deviceDataHandler badDoc mState0).predictionError = mState0.predictionError ∧
    mState0.socketConnected = false ∧
    (deviceDataHandler badDoc mState0).socketConnected = true := by
  refine ⟨by decide, by decide, by decide, by decide⟩

/-- C4 amended: a malformed telemetry push event is silently dropped as far
as the window and every user-facing field are concerned, but the handler
sets connectivity to connected before validating, so every `device_data`
event — malformed included — forces the connected state. -/
theorem malformed_event_effect (s : MonitoringState) (doc : Option RawDoc)
    (h : ¬ docValid doc) :
    (deviceDataHandler doc s).data = s.data ∧
    (deviceDataHandler doc s).prediction = s.prediction ∧
    (deviceDataHandler doc s).predictionError = s.predictionError ∧
    (deviceDataHandler doc s).predictionLoading = s.predictionLoading ∧
    (deviceDataHandler doc s).loading = s.loading ∧
    (deviceDataHandler doc s).socketConnected = true := by
  cases doc with
  | none => exact ⟨rfl, rfl, rfl, rfl, rfl, rfl⟩
  | some d =>
    cases hid : d.device_id with
    | none => simp [deviceDataHandler, hid]
    | some id =>
      cases hts : d.timestamp with
      | none => simp [deviceDataHandler, hid, hts]
      | some ts =>
        exact absurd ⟨by simp [hid], by simp [hts]⟩ h

/-- Witness for `malformed_event_effect` at the concrete malformed payload
and initial monitoring state. -/
theorem malformed_event_effect_witness :
    ¬ docValid badDoc ∧
    ((deviceDataHandler badDoc mState0).data = mState0.data ∧
      (deviceDataHandler badDoc mState0).prediction = mState0.prediction ∧
      (deviceDataHandler badDoc mState0).predictionError = mState0.predictionError ∧
      (deviceDataHandler badDoc mState0).predictionLoading = mState0.predictionLoading ∧
      (deviceDataHandler badDoc mState0).loading = mState0.loading ∧
      (deviceDataHandler badDoc mState0).socketConnected = true) :=
  ⟨by decide, malformed_event_effect mState0 badDoc (by decide)⟩

/-- Auxiliary for the debounce property: over a keystroke burst whose gaps
are all shorter than the settle interval (and whose first keystroke
precedes any already-armed deadline), no timer fires during processing, and
afterwards the armed timer is exactly that of the last keystroke (none for
a blank final value). -/
theorem foldl_processKey_quiet (keys : List (Nat × String)) :
    ∀ (s : WeatherState) (acc : List String),
      List.Chain' gapOk keys →
      (∀ d v, s.pending = some (d, v) → ∀ k ∈ keys.head?, k.1 < d) →
      (keys.foldl processKey (s, acc)).2 = acc ∧
      (keys.foldl processKey (s, acc)).1.pending =
        (match keys.getLast? with
         | none => s.pending
         | some (t, v) =>
           if jsTrim v = "" then none else some (t + SEARCH_DEBOUNCE_MS, v)) := by
  induction keys with
  | nil => intro s acc _ _; exact ⟨rfl, rfl⟩
  | cons k rest ih =>
    intro s acc hchain hpend
    obtain ⟨t, v⟩ := k
    have hfire : fireDue t s = (s, []) := by
      cases hp : s.pending with
      | none => simp [fireDue, hp]
      | some dv =>
        obtain ⟨d, v'⟩ := dv
        have hlt : t < d := hpend d v' hp (t, v) (by simp)
        simp [fireDue, hp, Nat.not_le.mpr hlt]
    have hstep : processKey (s, acc) (t, v) = (onInputChange t v s, acc) := by
      simp [processKey, hfire]
    rw [List.foldl_cons, hstep]
    have hpend2 : (onInputChange t v s).pending
        = if jsTrim v = "" then none else some (t + SEARCH_DEBOUNCE_MS, v) := by
      by_cases hb : jsTrim v = "" <;> simp [onInputChange, hb]
    have hchain' : List.Chain' gapOk rest := (List.chain'_cons'.mp hchain).2
    have hhead : ∀ b ∈ rest.head?, gapOk (t, v) b := (List.chain'_cons'.mp hchain).1
    have hpendcond : ∀ d v', (onInputChange t v s).pending = some (d, v') →
        ∀ k ∈ rest.head?, k.1 < d := by
      intro d v' hp k hk
      rw [hpend2] at hp
      by_cases hb : jsTrim v = ""
      · rw [if_pos hb] at hp; cases hp
      · rw [if_neg hb] at hp
        have hd : t + SEARCH_DEBOUNCE_MS = d := congrArg Prod.fst (Option.some.inj hp)
        have hg := hhead k hk
        simp only [gapOk] at hg
        omega
    obtain ⟨ih1, ih2⟩ := ih (onInputChange t v s) acc hchain' hpendcond
    refine ⟨ih1, ?_⟩
    rw [ih2]
    cases rest with
    | nil => simpa using hpend2
    | cons r rs => rfl

/-- C7: for any keystroke burst whose gaps are all shorter than the 350ms
settle interval, at most one search query fires, and it carries the final
(trimmed) input value; a blank input immediately clears the suggestion
list, closes the dropdown and disarms the timer, issuing no query. -/
theorem debounced_search_single_query (s0 : WeatherState)
    (keys : List (Nat × String)) (t : Nat) (v : String) (s : WeatherState)
    (h0 : s0.pending = none) (hchain : List.Chain' gapOk keys) :
    (runSearch s0 keys).2 = expectedFire keys ∧
    (runSearch s0 keys).2.length ≤ 1 ∧
    (jsTrim v = "" →
      (onInputChange t v s).citySuggestions = [] ∧
      (onInputChange t v s).suggestionsOpen = false ∧
      (onInputChange t v s).pending = none) := by
  have hcond : ∀ d v', s0.pending = some (d, v') → ∀ k ∈ keys.head?, k.1 < d := by
    intro d v' hp; rw [h0] at hp; cases hp
  obtain ⟨h1, h2⟩ := foldl_processKey_quiet keys s0 [] hchain hcond
  have hmain : (runSearch s0 keys).2 = expectedFire keys := by
    show ((keys.foldl processKey (s0, [])).2
      ++ (flushPending (keys.foldl processKey (s0, [])).1).2) = expectedFire keys
    rw [h1]
    cases hl : keys.getLast? with
    | none =>
      rw [hl] at h2
      simp only [expectedFire, hl]
      simp [flushPending, h2, h0]
    | some tv =>
      obtain ⟨tl, vl⟩ := tv
      rw [hl] at h2
      simp only at h2
      by_cases hb : jsTrim vl = ""
      · rw [if_pos hb] at h2
        simp [expectedFire, hl, hb, flushPending, h2]
      · rw [if_neg hb] at h2
        simp [expectedFire, hl, hb, flushPending, h2, fetchSuggestionsStart]
  refine ⟨hmain, ?_, ?_⟩
  · rw [hmain]
    unfold expectedFire
    cases keys.getLast? with
    | none => simp
    | some tv => obtain ⟨a, b⟩ := tv; by_cases hb : jsTrim b = "" <;> simp [hb]
  · intro hb
    simp [onInputChange, hb]

/-- Witness for `debounced_search_single_query`: typing "P", "a", "r" at
0ms, 100ms and 200ms fires exactly the single query "Par"; a whitespace
input clears immediately. -/
theorem debounced_search_single_query_witness :
    wState0.pending = none ∧
    List.Chain' gapOk [(0, "P"), (100, "Pa"), (200, "Par")] ∧
    ((runSearch wState0 [(0, "P"), (100, "Pa"), (200, "Par")]).2
        = expectedFire [(0, "P"), (100, "Pa"), (200, "Par")] ∧
      (runSearch wState0 [(0, "P"), (100, "Pa"), (200, "Par")]).2.length ≤ 1 ∧
      (jsTrim " " = "" →
        (onInputChange 500 " " wState0).citySuggestions = [] ∧
        (onInputChange 500 " " wState0).suggestionsOpen = false ∧
        (onInputChange 500 " " wState0).pending = none)) ∧
    expectedFire [(0, "P"), (100, "Pa"), (200, "Par")] = ["Par"] :=
  ⟨rfl, by simp [List.chain'_cons, List.chain'_singleton, gapOk, SEARCH_DEBOUNCE_MS],
    debounced_search_single_query wState0 [(0, "P"), (100, "Pa"), (200, "Par")] 500 " " wState0
      rfl (by simp [List.chain'_cons, List.chain'_singleton, gapOk, SEARCH_DEBOUNCE_MS]),
    by decide⟩

end Claims
